import Mathlib

/-!
# Span lifecycle of the `nethttp` tracing middleware

A shallow embedding of `client.go`, `httptrace.go`, `tracker.go` and `server.go`.

The tracing backend, the underlying round tripper, the response bodies, the
span observer and the inner handlers are collaborators behind Go interfaces.
Every call the package makes on one of them is appended, in program order, to a
journal; the backend hands out span identities from a counter, the way the
opentracing mock tracer does.  What a span "has" (tags, log records, number of
`Finish` calls) is read off the journal.
-/

namespace Nethttp

/-! ## Values exchanged with the collaborators -/

/-- A non-nil Go `error` value. -/
structure GoError where
  msg : String
  deriving DecidableEq, Repr

/-- A non-nil value recovered from a panic.  A running panic is observed by
`recover()` as a non-nil value: `panic(nil)` surfaces as a
`*runtime.PanicNilError`. -/
structure PanicValue where
  what : String
  deriving DecidableEq, Repr

/-- Identity of a span handed out by the tracing backend. -/
abbrev SpanId := Nat

/-- Value given to `Span.SetTag`. -/
inductive TagValue where
  | str (s : String)
  | bool (b : Bool)
  | uint16 (n : Nat)
  | int (i : Int)
  deriving DecidableEq, Repr

/-- A log field: `log.String(key, value)` or `log.Error(err)`. -/
inductive Field where
  | string (key value : String)
  | error (err : GoError)
  deriving DecidableEq, Repr

/-- Options passed to `Tracer.StartSpan`. -/
inductive StartOpt where
  | childOf (ctx : Option SpanId)
  | rpcServer (ctx : Option Nat)
  | spanKindRPCClient
  deriving DecidableEq, Repr

/-- One call made on a collaborator. -/
inductive Call where
  | startSpan (sp : SpanId) (name : String) (opts : List StartOpt)
  | setTag (sp : SpanId) (key : String) (value : TagValue)
  | logFields (sp : SpanId) (fields : List Field)
  | finish (sp : SpanId)
  | observe (sp : SpanId)
  | inject (sp : SpanId)
  | extract
  | roundTrip
  | bodyRead (body : Nat)
  | bodyClose (body : Nat)
  | serveHTTP
  | writeHeader (status : Int)
  | write (n : Nat)
  deriving DecidableEq, Repr

/-- The backend's span counter and the journal of calls made so far. -/
structure World where
  next : Nat
  journal : List Call
  deriving DecidableEq, Repr

/-- Record one call. -/
def World.call (w : World) (c : Call) : World :=
  { w with journal := w.journal ++ [c] }

/-- Go `Tracer.StartSpan(name, opts...)`: the backend returns a fresh span. -/
def World.StartSpan (w : World) (name : String) (opts : List StartOpt) : SpanId × World :=
  (w.next, { next := w.next + 1, journal := w.journal ++ [Call.startSpan w.next name opts] })

/-- The calls made between the world `w` and the later world `w2`. -/
def newCalls (w w2 : World) : List Call :=
  w2.journal.drop w.journal.length

/-! ## Reading the journal -/

/-- Number of `Finish` calls made on span `sp`. -/
def finishCount (sp : SpanId) (cs : List Call) : Nat :=
  cs.count (Call.finish sp)

/-- Number of `StartSpan` calls. -/
def startCount (cs : List Call) : Nat :=
  cs.countP fun c => match c with
    | Call.startSpan _ _ _ => true
    | _ => false

/-- Number of `Finish` calls on any span. -/
def finishTotal (cs : List Call) : Nat :=
  cs.countP fun c => match c with
    | Call.finish _ => true
    | _ => false

/-- The values given to `SetTag(key, ·)` on span `sp`, in order. -/
def tagsOf (sp : SpanId) (key : String) (cs : List Call) : List TagValue :=
  cs.filterMap fun c => match c with
    | Call.setTag s k v => if s = sp ∧ k = key then some v else none
    | _ => none

/-- The log records appended to span `sp`, in order. -/
def logsOf (sp : SpanId) (cs : List Call) : List (List Field) :=
  cs.filterMap fun c => match c with
    | Call.logFields s fs => if s = sp then some fs else none
    | _ => none

/-- The value of the string field `key` of a log record, if it has one. -/
def fieldOf (key : String) : List Field → Option String
  | [] => none
  | Field.string k v :: rest => if k = key then some v else fieldOf key rest
  | Field.error _ :: rest => fieldOf key rest

/-- Number of log records on `sp` whose `event` field is `ev`. -/
def eventCount (sp : SpanId) (ev : String) (cs : List Call) : Nat :=
  (logsOf sp cs).countP fun fs => fieldOf "event" fs == some ev

/-! ## tracker.go -/

/-- The body returned by the underlying round tripper: `readWriter` tells
whether it also implements `io.ReadWriteCloser`, `closeErr` is what its
`Close` returns. -/
structure RawBody where
  id : Nat
  readWriter : Bool
  closeErr : Option GoError
  deriving DecidableEq, Repr

/-- A response body: the underlying one, or one of the two trackers of
`tracker.go` around it. -/
inductive Body where
  | raw (b : RawBody)
  | closeTracker (b : RawBody) (sp : SpanId)
  | writerCloseTracker (b : RawBody) (sp : SpanId)
  deriving DecidableEq, Repr

/-- Go `Close` of the underlying body. -/
def RawBody.Close (b : RawBody) (w : World) : Option GoError × World :=
  (b.closeErr, w.call (Call.bodyClose b.id))

/-- Go `Read` of the underlying body. -/
def RawBody.Read (b : RawBody) (w : World) : World :=
  w.call (Call.bodyRead b.id)

/-- Go `closeTracker.Close`. -/
def closeTracker.Close (b : RawBody) (sp : SpanId) (w : World) : Option GoError × World :=
  let (err, w) := b.Close w
  let w := w.call (Call.logFields sp [Field.string "event" "ClosedBody"])
  let w := w.call (Call.finish sp)
  (err, w)

/-- Go `writerCloseTracker.Close`. -/
def writerCloseTracker.Close (b : RawBody) (sp : SpanId) (w : World) : Option GoError × World :=
  let (err, w) := b.Close w
  let w := w.call (Call.logFields sp [Field.string "event" "ClosedBody"])
  let w := w.call (Call.finish sp)
  (err, w)

/-- Go `Close` on a response body, dispatched on its dynamic type. -/
def Body.Close : Body → World → Option GoError × World
  | Body.raw b, w => b.Close w
  | Body.closeTracker b sp, w => closeTracker.Close b sp w
  | Body.writerCloseTracker b sp, w => writerCloseTracker.Close b sp w

/-- Go `Read` on a response body: both trackers embed the underlying body, so
`Read` is the promoted method of the underlying body. -/
def Body.Read : Body → World → World
  | Body.raw b, w => b.Read w
  | Body.closeTracker b _, w => b.Read w
  | Body.writerCloseTracker b _, w => b.Read w

/-- The span a tracker finishes. -/
def Body.span : Body → Option SpanId
  | Body.raw _ => none
  | Body.closeTracker _ sp => some sp
  | Body.writerCloseTracker _ sp => some sp

/-- Calling `Close` on the same body `n` times in sequence. -/
def closes : Nat → Body → World → World
  | 0, _, w => w
  | n + 1, b, w => closes n b (b.Close w).2

/-- Calling `Read` on the same body `k` times in sequence. -/
def reads : Nat → Body → World → World
  | 0, _, w => w
  | k + 1, b, w => reads k b (b.Read w)

/-! ## client.go -/

/-- The parts of `url.URL` the package reads. -/
structure URL where
  Host : String
  Path : String
  full : String
  deriving DecidableEq, Repr

/-- Go `u.String()`. -/
def URL.String (u : URL) : String := u.full

/-- The parts of `http.Request` the package reads: `ctxSpan` is the span
`opentracing.SpanFromContext(req.Context())` finds, `carried` the span
context the backend extracts from the headers. -/
structure Request where
  Method : String
  URL : URL
  ctxSpan : Option SpanId
  carried : Option Nat
  deriving DecidableEq, Repr

/-- Go `clientOptions` of `option.go`; the span observer is a collaborator, its
invocation is journalled as `Call.observe`. -/
structure clientOptions where
  operationName : String
  componentName : String
  urlTagFunc : URL → String
  disableClientTrace : Bool
  disableInjectSpanContext : Bool

/-- Go `defaultComponentName`. -/
def defaultComponentName : String := "net/http"

/-- The options `TraceRequest` starts from, before any `ClientOption`. -/
def defaultClientOptions : clientOptions :=
  { operationName := ""
    componentName := defaultComponentName
    urlTagFunc := fun u => u.String
    disableClientTrace := false
    disableInjectSpanContext := false }

/-- The trace handle `Tracer` of `httptrace.go`; `none` is a nil span. -/
structure Tracer where
  parentSpan : Option SpanId
  sp : Option SpanId
  opts : clientOptions

/-- The handle `TraceRequest` builds: `&Tracer{tr: tr, opts: opts}`. -/
def TraceRequest (opts : clientOptions) : Tracer :=
  { parentSpan := none, sp := none, opts := opts }

/-- What `Tracer.start` leaves behind: the updated handle, the (non-nil)
values of `h.parentSpan` and `h.sp`, and the world. -/
structure Started where
  tracer : Tracer
  parentSpan : SpanId
  sp : SpanId
  world : World

/-- Go `Tracer.start`. -/
def Tracer.start (h : Tracer) (req : Request) (w : World) : Started :=
  let (parentSpan, w) :=
    match h.parentSpan with
    | none =>
      let spanCtx := req.ctxSpan
      let (p, w) := w.StartSpan h.opts.operationName [StartOpt.childOf spanCtx]
      (p, w.call (Call.setTag p "span.kind" (TagValue.str "client")))
    | some p => (p, w)
  let ctx := parentSpan
  let (sp, w) := w.StartSpan ("HTTP " ++ req.Method ++ " :" ++ req.URL.Path)
    [StartOpt.childOf (some ctx), StartOpt.spanKindRPCClient]
  let w := w.call (Call.setTag sp "component" (TagValue.str h.opts.componentName))
  { tracer := { h with parentSpan := some parentSpan, sp := some sp }
    parentSpan := parentSpan
    sp := sp
    world := w }

/-- Go `Tracer.Finish`. -/
def Tracer.Finish (h : Tracer) (w : World) : World :=
  match h.parentSpan with
  | some p => w.call (Call.finish p)
  | none => w

/-- The `http.Response` the underlying round tripper returns. -/
structure RawResponse where
  StatusCode : Int
  Body : RawBody
  deriving DecidableEq, Repr

/-- The `http.Response` as `Transport.RoundTrip` returns it: the same
response, its `Body` possibly replaced by a tracker. -/
structure Response where
  StatusCode : Int
  Body : Body
  deriving DecidableEq, Repr

/-- The response handed on with its body untouched. -/
def RawResponse.asIs (resp : RawResponse) : Response :=
  { StatusCode := resp.StatusCode, Body := Body.raw resp.Body }

/-- What the underlying `RoundTrip` returns: a response and a nil error, or a
non-nil error with whatever response value came with it. -/
inductive RTResult where
  | ok (resp : RawResponse)
  | fail (resp : Option RawResponse) (err : GoError)
  deriving DecidableEq, Repr

/-- The Go conversion `uint16(x)` of an `int`. -/
def uint16 (x : Int) : Nat := (x % 65536).toNat

/-- Go `http.StatusInternalServerError`. -/
def StatusInternalServerError : Int := 500

/-- What `Transport.RoundTrip` returns and leaves behind. -/
structure RoundTripOut where
  tracer : Option Tracer
  resp : Option Response
  err : Option GoError
  world : World

/-- Go `Transport.RoundTrip`; `rt` is the underlying round tripper
(`t.RoundTripper`, or `http.DefaultTransport` when that is nil), `tracer` the
handle `TracerFromRequest(req)` finds (`none` is nil). -/
def Transport.RoundTrip (rt : Request → RTResult) (req : Request) (tracer : Option Tracer)
    (w : World) : RoundTripOut :=
  match tracer with
  | none =>
    let w := w.call Call.roundTrip
    match rt req with
    | RTResult.ok resp => { tracer := none, resp := some resp.asIs, err := none, world := w }
    | RTResult.fail resp err =>
      { tracer := none, resp := resp.map RawResponse.asIs, err := some err, world := w }
  | some tracer =>
    let st := tracer.start req w
    let tracer := st.tracer
    let w := st.world
    let w := w.call (Call.setTag st.sp "http.method" (TagValue.str req.Method))
    let w := w.call (Call.setTag st.sp "http.url" (TagValue.str (tracer.opts.urlTagFunc req.URL)))
    let w := w.call (Call.setTag st.sp "peer.address" (TagValue.str req.URL.Host))
    let w := w.call (Call.observe st.sp)
    let w := if !tracer.opts.disableInjectSpanContext then w.call (Call.inject st.sp) else w
    let w := w.call Call.roundTrip
    match rt req with
    | RTResult.fail resp err =>
      let w := w.call (Call.finish st.sp)
      { tracer := some tracer, resp := resp.map RawResponse.asIs, err := some err, world := w }
    | RTResult.ok resp =>
      let w := w.call (Call.setTag st.sp "http.status_code" (TagValue.uint16 (uint16 resp.StatusCode)))
      let w := w.call (Call.setTag st.parentSpan "http.status_code"
        (TagValue.uint16 (uint16 resp.StatusCode)))
      let w := if resp.StatusCode ≥ StatusInternalServerError
        then w.call (Call.setTag st.sp "error" (TagValue.bool true)) else w
      if req.Method = "HEAD" then
        let w := w.call (Call.finish st.sp)
        { tracer := some tracer, resp := some resp.asIs, err := none, world := w }
      else
        let ok := resp.Body.readWriter
        if ok then
          { tracer := some tracer
            resp := some { StatusCode := resp.StatusCode
                           Body := Body.writerCloseTracker resp.Body st.sp }
            err := none, world := w }
        else
          { tracer := some tracer
            resp := some { StatusCode := resp.StatusCode
                           Body := Body.closeTracker resp.Body st.sp }
            err := none, world := w }

/-- A sequence of transport attempts made with one handle, each with its own
request and underlying round tripper. -/
def attempts : List ((Request → RTResult) × Request) → Tracer → World → Tracer × World
  | [], h, w => (h, w)
  | (rt, req) :: rest, h, w =>
    let out := Transport.RoundTrip rt req (some h) w
    attempts rest (out.tracer.getD h) out.world

/-! ## httptrace.go -/

/-- One invocation of a hook of `httptrace.ClientTrace`, with its arguments
(`none` is a nil error). -/
inductive HookCall where
  | GetConn (hostPort : String)
  | GotConn (Reused WasIdle : Bool)
  | PutIdleConn (err : Option GoError)
  | GotFirstResponseByte
  | Got100Continue
  | DNSStart (Host : String)
  | DNSDone (Addrs : List String) (Err : Option GoError)
  | ConnectStart (network addr : String)
  | ConnectDone (network addr : String) (err : Option GoError)
  | WroteHeaders
  | Wait100Continue
  | WroteRequest (Err : Option GoError)
  deriving DecidableEq, Repr

/-- The name of the `httptrace.ClientTrace` field a hook call goes through. -/
def HookCall.name : HookCall → String
  | HookCall.GetConn _ => "GetConn"
  | HookCall.GotConn _ _ => "GotConn"
  | HookCall.PutIdleConn _ => "PutIdleConn"
  | HookCall.GotFirstResponseByte => "GotFirstResponseByte"
  | HookCall.Got100Continue => "Got100Continue"
  | HookCall.DNSStart _ => "DNSStart"
  | HookCall.DNSDone _ _ => "DNSDone"
  | HookCall.ConnectStart _ _ => "ConnectStart"
  | HookCall.ConnectDone _ _ _ => "ConnectDone"
  | HookCall.WroteHeaders => "WroteHeaders"
  | HookCall.Wait100Continue => "Wait100Continue"
  | HookCall.WroteRequest _ => "WroteRequest"

/-- Go `h.sp.LogFields(fields...)`; `none` when `h.sp` is nil. -/
def Tracer.LogFields (h : Tracer) (fields : List Field) (w : World) : Option World :=
  h.sp.map fun sp => w.call (Call.logFields sp fields)

/-- Go `h.sp.SetTag(key, value)`; `none` when `h.sp` is nil. -/
def Tracer.SetTag (h : Tracer) (key : String) (value : TagValue) (w : World) : Option World :=
  h.sp.map fun sp => w.call (Call.setTag sp key value)

/-- Go `Tracer.getConn`. -/
def Tracer.getConn (h : Tracer) (hostPort : String) (w : World) : Option World :=
  h.LogFields [Field.string "event" "GetConn", Field.string "hostPort" hostPort] w

/-- Go `Tracer.gotConn`. -/
def Tracer.gotConn (h : Tracer) (Reused WasIdle : Bool) (w : World) : Option World := do
  let w ← h.SetTag "net/http.reused" (TagValue.bool Reused) w
  let w ← h.SetTag "net/http.was_idle" (TagValue.bool WasIdle) w
  h.LogFields [Field.string "event" "GotConn"] w

/-- Go `Tracer.putIdleConn`. -/
def Tracer.putIdleConn (h : Tracer) (_ : Option GoError) (w : World) : Option World :=
  h.LogFields [Field.string "event" "PutIdleConn"] w

/-- Go `Tracer.gotFirstResponseByte`. -/
def Tracer.gotFirstResponseByte (h : Tracer) (w : World) : Option World :=
  h.LogFields [Field.string "event" "GotFirstResponseByte"] w

/-- Go `Tracer.got100Continue`. -/
def Tracer.got100Continue (h : Tracer) (w : World) : Option World :=
  h.LogFields [Field.string "event" "Got100Continue"] w

/-- Go `Tracer.dnsStart`. -/
def Tracer.dnsStart (h : Tracer) (Host : String) (w : World) : Option World :=
  h.LogFields [Field.string "event" "DNSStart", Field.string "host" Host] w

/-- Go `Tracer.dnsDone`. -/
def Tracer.dnsDone (h : Tracer) (Addrs : List String) (Err : Option GoError) (w : World) :
    Option World :=
  let fields := [Field.string "event" "DNSDone"]
  let fields := Addrs.foldl (fun fields addr => fields ++ [Field.string "addr" addr]) fields
  let fields :=
    match Err with
    | some e => fields ++ [Field.error e]
    | none => fields
  h.LogFields fields w

/-- Go `Tracer.connectStart`. -/
def Tracer.connectStart (h : Tracer) (network addr : String) (w : World) : Option World :=
  h.LogFields [Field.string "event" "ConnectStart", Field.string "network" network,
    Field.string "addr" addr] w

/-- Go `Tracer.connectDone`. -/
def Tracer.connectDone (h : Tracer) (network addr : String) (err : Option GoError) (w : World) :
    Option World :=
  match err with
  | some e =>
    h.LogFields [Field.string "message" "ConnectDone", Field.string "network" network,
      Field.string "addr" addr, Field.string "event" "error", Field.error e] w
  | none =>
    h.LogFields [Field.string "event" "ConnectDone", Field.string "network" network,
      Field.string "addr" addr] w

/-- Go `Tracer.wroteHeaders`. -/
def Tracer.wroteHeaders (h : Tracer) (w : World) : Option World :=
  h.LogFields [Field.string "event" "WroteHeaders"] w

/-- Go `Tracer.wait100Continue`. -/
def Tracer.wait100Continue (h : Tracer) (w : World) : Option World :=
  h.LogFields [Field.string "event" "Wait100Continue"] w

/-- Go `Tracer.wroteRequest`. -/
def Tracer.wroteRequest (h : Tracer) (Err : Option GoError) (w : World) : Option World :=
  match Err with
  | some e => do
    let w ← h.LogFields [Field.string "message" "WroteRequest", Field.string "event" "error",
      Field.error e] w
    h.SetTag "error" (TagValue.bool true) w
  | none =>
    h.LogFields [Field.string "event" "WroteRequest"] w

/-- Go `Tracer.clientTrace`: the table that binds every hook of
`httptrace.ClientTrace` to its method; applied to one hook invocation. -/
def Tracer.clientTrace (h : Tracer) : HookCall → World → Option World
  | HookCall.GetConn hostPort => h.getConn hostPort
  | HookCall.GotConn Reused WasIdle => h.gotConn Reused WasIdle
  | HookCall.PutIdleConn err => h.putIdleConn err
  | HookCall.GotFirstResponseByte => h.gotFirstResponseByte
  | HookCall.Got100Continue => h.got100Continue
  | HookCall.DNSStart Host => h.dnsStart Host
  | HookCall.DNSDone Addrs Err => h.dnsDone Addrs Err
  | HookCall.ConnectStart network addr => h.connectStart network addr
  | HookCall.ConnectDone network addr err => h.connectDone network addr err
  | HookCall.WroteHeaders => h.wroteHeaders
  | HookCall.Wait100Continue => h.wait100Continue
  | HookCall.WroteRequest Err => h.wroteRequest Err

/-- The hook invocations on whose error path the source logs
`event = "error"` and puts the hook name under `message`. -/
def HookCall.errorPath : HookCall → Bool
  | HookCall.ConnectDone _ _ (some _) => true
  | HookCall.WroteRequest (some _) => true
  | _ => false

/-! ## server.go -/

/-- Go `responseSizeKey`. -/
def responseSizeKey : String := "http.response_size"

/-- Go `Options` of `server.go`; the span observer and the tracer are
collaborators. -/
structure Options where
  opNameFunc : Request → String
  spanFilter : Request → Bool
  urlTagFunc : URL → String
  componentName : String

/-- The options `NewTracerServer` starts from, before any `Option`. -/
def NewTracerServer : Options :=
  { opNameFunc := fun r => "HTTP " ++ r.Method ++ ": " ++ r.URL.Path
    spanFilter := fun _ => true
    urlTagFunc := fun u => u.String
    componentName := defaultComponentName }

/-- One call a handler makes on the `http.ResponseWriter` it is given;
`Write n` is a `Write` whose underlying writer reports `n` bytes. -/
inductive WriterAction where
  | WriteHeader (status : Int)
  | Write (n : Nat)
  deriving DecidableEq, Repr

/-- What one run of a handler does: its calls on the writer, in order, and
the value it panics with, if it panics. -/
structure HandlerRun where
  actions : List WriterAction
  panicErr : Option PanicValue
  deriving DecidableEq, Repr

/-- A handler (`http.HandlerFunc`, or the rest of the Gin chain behind
`c.Next()`). -/
abbrev Handler := Request → HandlerRun

/-- How a call of the middleware ends. -/
inductive Outcome where
  | returned
  | panicked (v : PanicValue)
  deriving DecidableEq, Repr

/-- The outcome of running a handler that is not recovered from. -/
def HandlerRun.outcome (run : HandlerRun) : Outcome :=
  match run.panicErr with
  | some v => Outcome.panicked v
  | none => Outcome.returned

/-- A call on the underlying response writer. -/
def WriterAction.direct (a : WriterAction) (w : World) : World :=
  match a with
  | WriterAction.WriteHeader status => w.call (Call.writeHeader status)
  | WriterAction.Write n => w.call (Call.write n)

/-- A handler writing straight to the underlying response writer. -/
def writeDirect (actions : List WriterAction) (w : World) : World :=
  actions.foldl (fun w a => a.direct w) w

/-- Modelled from the spec: the Metrics Tracker `metricsTracker`, whose
declaration is not among the sources: the captured status code (0 = unset)
and the captured byte count. -/
structure metricsTracker where
  status : Int
  size : Int
  deriving DecidableEq, Repr

/-- Modelled from the spec: `metricsTracker.WriteHeader`, not among the
sources: the status is captured on the first write of a status, exactly
once, and the call goes on to the wrapped writer unaltered. -/
def metricsTracker.WriteHeader (mt : metricsTracker) (status : Int) (w : World) :
    metricsTracker × World :=
  (if mt.status = 0 then { mt with status := status } else mt, w.call (Call.writeHeader status))

/-- Modelled from the spec: `metricsTracker.Write`, not among the sources:
the byte count grows by what the wrapped writer reports written. -/
def metricsTracker.Write (mt : metricsTracker) (n : Nat) (w : World) : metricsTracker × World :=
  ({ mt with size := mt.size + n }, w.call (Call.write n))

/-- A handler writing through `mt.wrappedResponseWriter()`. -/
def metricsTracker.serve (mt : metricsTracker) : List WriterAction → World → metricsTracker × World
  | [], w => (mt, w)
  | WriterAction.WriteHeader status :: rest, w =>
    let (mt, w) := mt.WriteHeader status w
    mt.serve rest w
  | WriterAction.Write n :: rest, w =>
    let (mt, w) := mt.Write n w
    mt.serve rest w

/-- The deferred function of `MiddlewareFunc` and of `MiddlewareWithGinFunc`,
up to and including `sp.Finish()`; `panicErr` is what `recover()` returned. -/
def deferred (sp : SpanId) (mt : metricsTracker) (panicErr : Option PanicValue) (w : World) :
    World :=
  let didPanic := panicErr.isSome
  let mt := if mt.status = 0 ∧ didPanic = false then { mt with status := 200 } else mt
  let w := if mt.status > 0
    then w.call (Call.setTag sp "http.status_code" (TagValue.uint16 (uint16 mt.status))) else w
  let w := if mt.size > 0 then w.call (Call.setTag sp responseSizeKey (TagValue.int mt.size)) else w
  let w := if mt.status ≥ StatusInternalServerError ∨ didPanic = true
    then w.call (Call.setTag sp "error" (TagValue.bool true)) else w
  w.call (Call.finish sp)

/-- The handler `Options.MiddlewareFunc` returns, applied to one request. -/
def Options.MiddlewareFunc (opts : Options) (h : Handler) (r : Request) (w : World) :
    Outcome × World :=
  if !opts.spanFilter r then
    let run := h r
    let w := w.call Call.serveHTTP
    (run.outcome, writeDirect run.actions w)
  else
    let w := w.call Call.extract
    let ctx := r.carried
    let (sp, w) := w.StartSpan (opts.opNameFunc r) [StartOpt.rpcServer ctx]
    let w := w.call (Call.setTag sp "http.method" (TagValue.str r.Method))
    let w := w.call (Call.setTag sp "http.url" (TagValue.str (opts.urlTagFunc r.URL)))
    let w := w.call (Call.setTag sp "component" (TagValue.str opts.componentName))
    let w := w.call (Call.observe sp)
    let mt : metricsTracker := { status := 0, size := 0 }
    let r := { r with ctxSpan := some sp }
    let run := h r
    let w := w.call Call.serveHTTP
    let (mt, w) := mt.serve run.actions w
    let panicErr := run.panicErr
    let w := deferred sp mt panicErr w
    match panicErr with
    | some v => (Outcome.panicked v, w)
    | none => (Outcome.returned, w)

/-- Go `Options.MiddlewareWithGinFunc`, applied to one Gin context: `next` is
the rest of the chain behind `c.Next()`, which writes to `c.Writer`; `mt` is
built around `c.Writer` but `c.Writer` is left as it is, and the
`mt.wrappedResponseWriter()` that ends the deferred function builds a value
that is dropped. -/
def Options.MiddlewareWithGinFunc (opts : Options) (next : Handler) (r : Request) (w : World) :
    Outcome × World :=
  if !opts.spanFilter r then
    let run := next r
    let w := w.call Call.serveHTTP
    (run.outcome, writeDirect run.actions w)
  else
    let w := w.call Call.extract
    let ctx := r.carried
    let (sp, w) := w.StartSpan (opts.opNameFunc r) [StartOpt.rpcServer ctx]
    let w := w.call (Call.setTag sp "http.method" (TagValue.str r.Method))
    let w := w.call (Call.setTag sp "http.url" (TagValue.str (opts.urlTagFunc r.URL)))
    let w := w.call (Call.setTag sp "component" (TagValue.str opts.componentName))
    let w := w.call (Call.observe sp)
    let mt : metricsTracker := { status := 0, size := 0 }
    let r := { r with ctxSpan := some sp }
    let run := next r
    let w := w.call Call.serveHTTP
    let w := writeDirect run.actions w
    let panicErr := run.panicErr
    let w := deferred sp mt panicErr w
    match panicErr with
    | some v => (Outcome.panicked v, w)
    | none => (Outcome.returned, w)

/-- What a fresh Metrics Tracker has captured when the handler run is over. -/
def HandlerRun.captured (run : HandlerRun) : metricsTracker :=
  (metricsTracker.serve { status := 0, size := 0 } run.actions { next := 0, journal := [] }).1

/-- The underlying body a response body delegates to. -/
def Body.inner : Body → RawBody
  | Body.raw b => b
  | Body.closeTracker b _ => b
  | Body.writerCloseTracker b _ => b

/-- The calls `Transport.RoundTrip` makes for a request carrying the handle
`h`, from the world `w`. -/
def tracedCalls (rt : Request → RTResult) (req : Request) (h : Tracer) (w : World) : List Call :=
  newCalls w (Transport.RoundTrip rt req (some h) w).world

/-- The active span of the handle after a round trip. -/
def RoundTripOut.activeSpan (out : RoundTripOut) : Option SpanId :=
  out.tracer.bind fun t => t.sp

/-- The parent span of the handle after a round trip. -/
def RoundTripOut.parentSpan (out : RoundTripOut) : Option SpanId :=
  out.tracer.bind fun t => t.parentSpan

/-- The parent span of a handle, if it has one, was handed out by the backend
of this world. -/
def Tracer.known (h : Tracer) (w : World) : Prop :=
  ∀ p : Nat, h.parentSpan = some p → p < w.next

/-- The run of the inner handler on the request that carries the span. -/
def Options.handlerRun (_ : Options) (h : Handler) (r : Request) (w : World) : HandlerRun :=
  h { r with ctxSpan := some w.next }

/-- The calls the handler of `MiddlewareFunc` makes for one request. -/
def servedCalls (opts : Options) (h : Handler) (r : Request) (w : World) : List Call :=
  newCalls w (opts.MiddlewareFunc h r w).2

/-- The calls `MiddlewareWithGinFunc` makes for one request. -/
def ginCalls (opts : Options) (next : Handler) (r : Request) (w : World) : List Call :=
  newCalls w (opts.MiddlewareWithGinFunc next r w).2

/-- The hook invocations that are `WroteRequest` with a non-nil error. -/
def HookCall.isFailedWrite : HookCall → Bool
  | HookCall.WroteRequest (some _) => true
  | _ => false

/-- The calls one hook invocation makes (none when the handle has no active
span: the source then dereferences a nil span). -/
def hookCalls (h : Tracer) (c : HookCall) (w : World) : List Call :=
  match h.clientTrace c w with
  | some w2 => newCalls w w2
  | none => []

/-- The `StartSpan` calls of a journal segment, in order. -/
def startsOf (cs : List Call) : List Call :=
  cs.filter fun c => match c with
    | Call.startSpan _ _ _ => true
    | _ => false

/-- The `StartSpan` calls expected for the active spans of a sequence of
attempts: one per request, named `"HTTP <method> :<path>"`, child of the
parent span, with consecutive fresh identities from `n` on. -/
def activeStarts (parent : SpanId) : Nat → List Request → List Call
  | _, [] => []
  | n, r :: rs =>
    Call.startSpan n ("HTTP " ++ r.Method ++ " :" ++ r.URL.Path)
      [StartOpt.childOf (some parent), StartOpt.spanKindRPCClient] :: activeStarts parent (n + 1) rs

/-! ## Sample inputs -/

/-- An underlying round tripper that fails to dial. -/
def failingTransport : Request → RTResult :=
  fun _ => RTResult.fail none { msg := "dial tcp: connection refused" }

/-- An underlying round tripper that answers 503 with a plain body. -/
def transport503 : Request → RTResult :=
  fun _ => RTResult.ok
    { StatusCode := 503, Body := { id := 0, readWriter := false, closeErr := none } }

/-- The handle `TraceRequest` builds with the default options. -/
def freshHandle : Tracer := TraceRequest defaultClientOptions

/-- A handle whose active span is span 0. -/
def sampleHandle : Tracer := { parentSpan := none, sp := some 0, opts := defaultClientOptions }

/-- A failed TCP connect. -/
def sampleConnectDone : HookCall :=
  HookCall.ConnectDone "tcp" "10.0.0.1:80" (some { msg := "connection refused" })

/-- A GET of `http://svc/items/42`. -/
def sampleGet : Request :=
  { Method := "GET"
    URL := { Host := "svc", Path := "/items/42", full := "http://svc/items/42" }
    ctxSpan := none
    carried := none }

/-- A HEAD of `http://svc/items/42`. -/
def sampleHead : Request := { sampleGet with Method := "HEAD" }

/-- A backend that has handed out no span yet. -/
def freshWorld : World := { next := 0, journal := [] }

/-- A handler that writes status 503 and three bytes, and returns. -/
def handler503 : Handler := fun _ =>
  { actions := [WriterAction.WriteHeader 503, WriterAction.Write 3], panicErr := none }

/-- A handler that writes status 404 and returns. -/
def handler404 : Handler := fun _ =>
  { actions := [WriterAction.WriteHeader 404], panicErr := none }

/-- A handler that writes nothing and panics. -/
def handlerPanic : Handler := fun _ =>
  { actions := [], panicErr := some { what := "boom" } }

/-- A handler that writes the status 65736 and returns. -/
def handler65736 : Handler := fun _ =>
  { actions := [WriterAction.WriteHeader 65736], panicErr := none }

/-! ## Journal segments used to state the results -/

/-- The call on the underlying writer behind a call on the writer. -/
def WriterAction.toCall : WriterAction → Call
  | WriterAction.WriteHeader status => Call.writeHeader status
  | WriterAction.Write n => Call.write n

/-- The calls the deferred function makes. -/
def deferredCalls (sp : SpanId) (mt : metricsTracker) (panicErr : Option PanicValue) :
    List Call :=
  (deferred sp mt panicErr { next := 0, journal := [] }).journal

/-- The calls both middlewares make before the inner handler runs. -/
def openingCalls (opts : Options) (r : Request) (sp : SpanId) : List Call :=
  [Call.extract, Call.startSpan sp (opts.opNameFunc r) [StartOpt.rpcServer r.carried],
    Call.setTag sp "http.method" (TagValue.str r.Method),
    Call.setTag sp "http.url" (TagValue.str (opts.urlTagFunc r.URL)),
    Call.setTag sp "component" (TagValue.str opts.componentName),
    Call.observe sp, Call.serveHTTP]

/-- The calls one `Close` of a response body makes. -/
def closeCalls : Body → List Call
  | Body.raw b => [Call.bodyClose b.id]
  | Body.closeTracker b sp =>
    [Call.bodyClose b.id, Call.logFields sp [Field.string "event" "ClosedBody"], Call.finish sp]
  | Body.writerCloseTracker b sp =>
    [Call.bodyClose b.id, Call.logFields sp [Field.string "event" "ClosedBody"], Call.finish sp]

/-- A journal segment repeated `n` times. -/
def repeatCalls : Nat → List Call → List Call
  | 0, _ => []
  | n + 1, cs => cs ++ repeatCalls n cs

/-! ## Results -/

theorem newCalls_append (w w2 : World) (cs : List Call) (h : w2.journal = w.journal ++ cs) :
    newCalls w w2 = cs := by
  simp [newCalls, h]

theorem Body_Close_journal (b : Body) (w : World) :
    (b.Close w).2.journal = w.journal ++ closeCalls b := by
  cases b <;>
    simp [Body.Close, closeTracker.Close, writerCloseTracker.Close, RawBody.Close, closeCalls,
      World.call]

theorem closes_journal (n : Nat) (b : Body) (w : World) :
    (closes n b w).journal = w.journal ++ repeatCalls n (closeCalls b) := by
  induction n generalizing w with
  | zero => simp [closes, repeatCalls]
  | succ n ih => simp [closes, repeatCalls, ih, Body_Close_journal]

theorem finishCount_closeCalls (b : Body) (sp : SpanId) (h : b.span = some sp) :
    finishCount sp (closeCalls b) = 1 := by
  cases b <;> simp_all [Body.span, closeCalls, finishCount]

theorem eventCount_closeCalls (b : Body) (sp : SpanId) (h : b.span = some sp) :
    eventCount sp "ClosedBody" (closeCalls b) = 1 := by
  cases b <;> simp_all [Body.span, closeCalls, eventCount, logsOf, fieldOf]

theorem finishCount_append (sp : SpanId) (xs ys : List Call) :
    finishCount sp (xs ++ ys) = finishCount sp xs + finishCount sp ys := by
  simp [finishCount]

theorem logsOf_append (sp : SpanId) (xs ys : List Call) :
    logsOf sp (xs ++ ys) = logsOf sp xs ++ logsOf sp ys := by
  simp [logsOf]

theorem eventCount_append (sp : SpanId) (ev : String) (xs ys : List Call) :
    eventCount sp ev (xs ++ ys) = eventCount sp ev xs + eventCount sp ev ys := by
  simp [eventCount, logsOf_append]

theorem finishCount_repeatCalls (sp : SpanId) (n : Nat) (cs : List Call) :
    finishCount sp (repeatCalls n cs) = n * finishCount sp cs := by
  induction n with
  | zero => simp [repeatCalls, finishCount]
  | succ n ih => simp [repeatCalls, finishCount_append, ih]; ring

theorem eventCount_repeatCalls (sp : SpanId) (ev : String) (n : Nat) (cs : List Call) :
    eventCount sp ev (repeatCalls n cs) = n * eventCount sp ev cs := by
  induction n with
  | zero => simp [repeatCalls, eventCount, logsOf]
  | succ n ih => simp [repeatCalls, eventCount_append, ih]; ring

/-- C1 (as the code behaves): for every tracker body (closeTracker or
writerCloseTracker) around any underlying body, with span sp, and every n,
calling Close n times in sequence records the ClosedBody log entry n times
and calls Finish on the span n times: once per call, so exactly once only
for n = 1. -/
theorem C1_close_n_times (n : Nat) (b : Body) (sp : SpanId) (w : World)
    (hb : b.span = some sp) :
    eventCount sp "ClosedBody" (newCalls w (closes n b w)) = n ∧
      finishCount sp (newCalls w (closes n b w)) = n := by
  rw [newCalls_append w _ _ (closes_journal n b w)]
  simp [finishCount_repeatCalls, eventCount_repeatCalls, finishCount_closeCalls b sp hb,
    eventCount_closeCalls b sp hb]

/-- C1 witness: three Close calls on a closeTracker. -/
theorem C1_close_n_times_witness :
    eventCount 7 "ClosedBody" (newCalls { next := 8, journal := [] }
        (closes 3 (Body.closeTracker { id := 0, readWriter := false, closeErr := none } 7)
          { next := 8, journal := [] })) = 3 ∧
      finishCount 7 (newCalls { next := 8, journal := [] }
        (closes 3 (Body.closeTracker { id := 0, readWriter := false, closeErr := none } 7)
          { next := 8, journal := [] })) = 3 :=
  C1_close_n_times 3 _ 7 _ rfl

/-- C1 counterexample: two Close calls in sequence on a closeTracker record
ClosedBody twice and finish the span twice, not once. -/
theorem C1_counterexample :
    ¬ (eventCount 7 "ClosedBody" (newCalls { next := 8, journal := [] }
        (closes 2 (Body.closeTracker { id := 0, readWriter := false, closeErr := none } 7)
          { next := 8, journal := [] })) = 1 ∧
      finishCount 7 (newCalls { next := 8, journal := [] }
        (closes 2 (Body.closeTracker { id := 0, readWriter := false, closeErr := none } 7)
          { next := 8, journal := [] })) = 1) := by
  decide

theorem TraceRequest_known (opts : clientOptions) (w : World) : (TraceRequest opts).known w :=
  fun _ hp => nomatch hp

/-- C2: for every request carrying a trace handle, if the underlying round
trip returns an error e, Transport.RoundTrip returns that error e and the
underlying response value unmodified; the active span is finished exactly once
by the calls of this round trip, the Finish being the last call before
returning; the parent span is a different span and is not finished; and no
http.status_code tag is set on any span. -/
theorem C2_transport_error (rt : Request → RTResult) (req : Request) (h : Tracer) (w : World)
    (resp : Option RawResponse) (e : GoError)
    (hrt : rt req = RTResult.fail resp e) (hk : h.known w) :
    (Transport.RoundTrip rt req (some h) w).err = some e ∧
    (Transport.RoundTrip rt req (some h) w).resp = resp.map RawResponse.asIs ∧
    ∃ sp parent,
      (Transport.RoundTrip rt req (some h) w).activeSpan = some sp ∧
      (Transport.RoundTrip rt req (some h) w).parentSpan = some parent ∧
      sp ≠ parent ∧
      finishCount sp (newCalls w (Transport.RoundTrip rt req (some h) w).world) = 1 ∧
      (newCalls w (Transport.RoundTrip rt req (some h) w).world).getLast? =
        some (Call.finish sp) ∧
      finishCount parent (newCalls w (Transport.RoundTrip rt req (some h) w).world) = 0 ∧
      ∀ s, tagsOf s "http.status_code"
        (newCalls w (Transport.RoundTrip rt req (some h) w).world) = [] := by
  cases hp : h.parentSpan with
  | none =>
    refine ⟨?_, ?_, w.next + 1, w.next, ?_⟩
    · simp [Transport.RoundTrip, hrt]
    · simp [Transport.RoundTrip, hrt]
    · cases hi : h.opts.disableInjectSpanContext <;>
        simp [Transport.RoundTrip, hrt, Tracer.start, hp, hi, World.StartSpan, World.call,
          RoundTripOut.activeSpan, RoundTripOut.parentSpan, newCalls, finishCount, tagsOf]
  | some p =>
    have hlt : p < w.next := hk p hp
    have hne : ¬ w.next = p := Nat.ne_of_gt hlt
    have hne2 : ¬ p = w.next := Nat.ne_of_lt hlt
    refine ⟨?_, ?_, w.next, p, ?_⟩
    · simp [Transport.RoundTrip, hrt]
    · simp [Transport.RoundTrip, hrt]
    · cases hi : h.opts.disableInjectSpanContext <;>
        simp [Transport.RoundTrip, hrt, Tracer.start, hp, hi, World.StartSpan, World.call,
          RoundTripOut.activeSpan, RoundTripOut.parentSpan, newCalls, finishCount, tagsOf,
          List.count_singleton, hne, hne2]

/-- C2 witness: a GET whose dial fails, on a fresh handle. -/
theorem C2_transport_error_witness :
    failingTransport sampleGet =
      RTResult.fail none { msg := "dial tcp: connection refused" } ∧
    freshHandle.known freshWorld ∧
    (Transport.RoundTrip failingTransport sampleGet (some freshHandle) freshWorld).err =
      some { msg := "dial tcp: connection refused" } ∧
    (Transport.RoundTrip failingTransport sampleGet (some freshHandle) freshWorld).resp =
      none :=
  have hk : freshHandle.known freshWorld := fun _ hp => nomatch hp
  have key := C2_transport_error failingTransport sampleGet freshHandle freshWorld none
    { msg := "dial tcp: connection refused" } rfl hk
  ⟨rfl, hk, key.1, key.2.1⟩

theorem reads_journal (k : Nat) (b : Body) (w : World) :
    (reads k b w).journal = w.journal ++ List.replicate k (Call.bodyRead b.inner.id) := by
  induction k generalizing w with
  | zero => simp [reads]
  | succ k ih =>
    cases b <;>
      simp [reads, ih, Body.Read, RawBody.Read, World.call, Body.inner, List.replicate_succ]

theorem finishCount_replicate_bodyRead (sp : SpanId) (k i : Nat) :
    finishCount sp (List.replicate k (Call.bodyRead i)) = 0 := by
  simp [finishCount, List.count_replicate]

theorem uint16_of_range (s : Int) (h0 : 0 ≤ s) (h1 : s < 65536) : uint16 s = s.toNat := by
  simp [uint16, Int.emod_eq_of_lt h0 h1]

/-- C4: for every traced request whose underlying round trip succeeds with
status code s, 0 <= s < 65536, Transport.RoundTrip sets http.status_code = s
exactly once on the active span and exactly once on the parent span (a
different span); it sets error = true on the active span if and only if
s >= 500, and never sets the error tag on the parent span. -/
theorem C4_status_tags (rt : Request → RTResult) (req : Request) (h : Tracer) (w : World)
    (resp : RawResponse) (s : Int)
    (hrt : rt req = RTResult.ok resp) (hk : h.known w)
    (hs : resp.StatusCode = s) (h0 : 0 ≤ s) (h1 : s < 65536) :
    ∃ sp parent,
      (Transport.RoundTrip rt req (some h) w).activeSpan = some sp ∧
      (Transport.RoundTrip rt req (some h) w).parentSpan = some parent ∧
      sp ≠ parent ∧
      tagsOf sp "http.status_code" (tracedCalls rt req h w) = [TagValue.uint16 s.toNat] ∧
      tagsOf parent "http.status_code" (tracedCalls rt req h w) = [TagValue.uint16 s.toNat] ∧
      (TagValue.bool true ∈ tagsOf sp "error" (tracedCalls rt req h w) ↔ 500 ≤ s) ∧
      tagsOf sp "error" (tracedCalls rt req h w) =
        (if 500 ≤ s then [TagValue.bool true] else []) ∧
      tagsOf parent "error" (tracedCalls rt req h w) = [] := by
  have hu := uint16_of_range s h0 h1
  subst hs
  cases hp : h.parentSpan with
  | none =>
    refine ⟨w.next + 1, w.next, ?_⟩
    cases hi : h.opts.disableInjectSpanContext <;>
    by_cases hm : req.Method = "HEAD" <;>
    by_cases h5 : 500 ≤ resp.StatusCode <;>
    cases hb : resp.Body.readWriter <;>
      simp [tracedCalls, Transport.RoundTrip, hrt, Tracer.start, hp, hi, hm, h5, hb, hu,
        World.StartSpan, World.call, RoundTripOut.activeSpan, RoundTripOut.parentSpan, newCalls,
        tagsOf, StatusInternalServerError]
  | some p =>
    have hlt : p < w.next := hk p hp
    have hne : ¬ w.next = p := Nat.ne_of_gt hlt
    have hne2 : ¬ p = w.next := Nat.ne_of_lt hlt
    refine ⟨w.next, p, ?_⟩
    cases hi : h.opts.disableInjectSpanContext <;>
    by_cases hm : req.Method = "HEAD" <;>
    by_cases h5 : 500 ≤ resp.StatusCode <;>
    cases hb : resp.Body.readWriter <;>
      simp [tracedCalls, Transport.RoundTrip, hrt, Tracer.start, hp, hi, hm, h5, hb, hu,
        World.StartSpan, World.call, RoundTripOut.activeSpan, RoundTripOut.parentSpan, newCalls,
        tagsOf, StatusInternalServerError, hne, hne2]

/-- C4 witness: a GET answered 503, on a fresh handle. -/
theorem C4_status_tags_witness :
    freshHandle.known freshWorld ∧
    ∃ sp parent,
      (Transport.RoundTrip transport503 sampleGet (some freshHandle) freshWorld).activeSpan =
        some sp ∧
      (Transport.RoundTrip transport503 sampleGet (some freshHandle) freshWorld).parentSpan =
        some parent ∧
      sp ≠ parent ∧
      tagsOf sp "http.status_code" (tracedCalls transport503 sampleGet freshHandle freshWorld) =
        [TagValue.uint16 503] ∧
      tagsOf parent "http.status_code"
        (tracedCalls transport503 sampleGet freshHandle freshWorld) = [TagValue.uint16 503] ∧
      (TagValue.bool true ∈
        tagsOf sp "error" (tracedCalls transport503 sampleGet freshHandle freshWorld) ↔
          (500 : Int) ≤ 503) ∧
      tagsOf sp "error" (tracedCalls transport503 sampleGet freshHandle freshWorld) =
        (if (500 : Int) ≤ 503 then [TagValue.bool true] else []) ∧
      tagsOf parent "error" (tracedCalls transport503 sampleGet freshHandle freshWorld) = [] :=
  have hk : freshHandle.known freshWorld := fun _ hp => nomatch hp
  ⟨hk, C4_status_tags transport503 sampleGet freshHandle freshWorld
    { StatusCode := 503, Body := { id := 0, readWriter := false, closeErr := none } } 503
    rfl hk rfl (by decide) (by decide)⟩

theorem RoundTrip_extends (rt : Request → RTResult) (req : Request) (h : Tracer) (w : World) :
    (Transport.RoundTrip rt req (some h) w).world.journal = w.journal ++ tracedCalls rt req h w := by
  cases hp : h.parentSpan <;>
  cases hi : h.opts.disableInjectSpanContext <;>
  cases hr : rt req <;>
    simp [tracedCalls, Transport.RoundTrip, hr, Tracer.start, hp, hi, World.StartSpan,
      World.call, newCalls] <;>
    split_ifs <;> simp

theorem newCalls_later (w w1 w2 : World) (a b : List Call)
    (h1 : w1.journal = w.journal ++ a) (h2 : w2.journal = w1.journal ++ b) :
    newCalls w w2 = a ++ b := by
  simp [newCalls, h2, h1]

theorem finishCount_tracedCalls_ok (rt : Request → RTResult) (req : Request) (h : Tracer)
    (w : World) (resp : RawResponse) (hrt : rt req = RTResult.ok resp) :
    ∃ sp, (Transport.RoundTrip rt req (some h) w).activeSpan = some sp ∧
      finishCount sp (tracedCalls rt req h w) = (if req.Method = "HEAD" then 1 else 0) ∧
      (Transport.RoundTrip rt req (some h) w).resp =
        some (if req.Method = "HEAD" then resp.asIs else
          { StatusCode := resp.StatusCode
            Body := if resp.Body.readWriter then Body.writerCloseTracker resp.Body sp
              else Body.closeTracker resp.Body sp }) := by
  cases hp : h.parentSpan with
  | none =>
    refine ⟨w.next + 1, ?_⟩
    cases hi : h.opts.disableInjectSpanContext <;>
    by_cases hm : req.Method = "HEAD" <;>
    by_cases h5 : 500 ≤ resp.StatusCode <;>
    cases hb : resp.Body.readWriter <;>
      simp [tracedCalls, Transport.RoundTrip, hrt, Tracer.start, hp, hi, hm, h5, hb,
        World.StartSpan, World.call, RoundTripOut.activeSpan, newCalls,
        finishCount, StatusInternalServerError]
  | some p =>
    refine ⟨w.next, ?_⟩
    cases hi : h.opts.disableInjectSpanContext <;>
    by_cases hm : req.Method = "HEAD" <;>
    by_cases h5 : 500 ≤ resp.StatusCode <;>
    cases hb : resp.Body.readWriter <;>
      simp [tracedCalls, Transport.RoundTrip, hrt, Tracer.start, hp, hi, hm, h5, hb,
        World.StartSpan, World.call, RoundTripOut.activeSpan, newCalls,
        finishCount, StatusInternalServerError]

/-- C3: for every traced request whose underlying round trip succeeds: if the
method is HEAD, the active span has been finished exactly once when
Transport.RoundTrip returns, and the body is handed on as it is; for every
other method the returned body is a tracker around the underlying body with
the active span, the active span is unfinished when RoundTrip returns and
stays unfinished after any number k of reads of the returned body, and the
first Close of the returned body calls the underlying Close, then logs
ClosedBody, then finishes the span, in that order, which leaves the span
finished exactly once, and returns the error of the underlying Close. -/
theorem C3_finish_on_close (rt : Request → RTResult) (req : Request) (h : Tracer) (w : World)
    (resp : RawResponse) (hrt : rt req = RTResult.ok resp) :
    ∃ sp, (Transport.RoundTrip rt req (some h) w).activeSpan = some sp ∧
      (req.Method = "HEAD" →
        finishCount sp (tracedCalls rt req h w) = 1 ∧
        (Transport.RoundTrip rt req (some h) w).resp = some resp.asIs) ∧
      (req.Method ≠ "HEAD" →
        ∃ body, (Transport.RoundTrip rt req (some h) w).resp =
            some { StatusCode := resp.StatusCode, Body := body } ∧
          body.span = some sp ∧ body.inner = resp.Body ∧
          finishCount sp (tracedCalls rt req h w) = 0 ∧
          ∀ k, finishCount sp
              (newCalls w (reads k body (Transport.RoundTrip rt req (some h) w).world)) = 0 ∧
            newCalls (reads k body (Transport.RoundTrip rt req (some h) w).world)
              (body.Close (reads k body (Transport.RoundTrip rt req (some h) w).world)).2 =
              [Call.bodyClose resp.Body.id,
                Call.logFields sp [Field.string "event" "ClosedBody"], Call.finish sp] ∧
            finishCount sp (newCalls w
              (body.Close (reads k body (Transport.RoundTrip rt req (some h) w).world)).2) = 1 ∧
            (body.Close (reads k body (Transport.RoundTrip rt req (some h) w).world)).1 =
              resp.Body.closeErr) := by
  obtain ⟨sp, hsp, hfin, hresp⟩ := finishCount_tracedCalls_ok rt req h w resp hrt
  refine ⟨sp, hsp, ?_, ?_⟩
  · intro hm
    simp [hm] at hfin hresp
    exact ⟨hfin, hresp⟩
  · intro hm
    simp [hm] at hfin hresp
    refine ⟨_, hresp, ?_, ?_, hfin, ?_⟩
    · cases resp.Body.readWriter <;> simp [Body.span]
    · cases resp.Body.readWriter <;> simp [Body.inner]
    · intro k
      have hext := RoundTrip_extends rt req h w
      have hreads := fun b => reads_journal k b (Transport.RoundTrip rt req (some h) w).world
      refine ⟨?_, ?_, ?_, ?_⟩
      · rw [newCalls_later w _ _ _ _ hext (hreads _)]
        simp [finishCount_append, hfin, finishCount_replicate_bodyRead]
      · rw [newCalls_append _ _ _ (Body_Close_journal _ _)]
        cases resp.Body.readWriter <;> simp [closeCalls]
      · rw [newCalls_later w _ _ (tracedCalls rt req h w ++ _) _
          (by rw [hreads, hext, List.append_assoc]) (Body_Close_journal _ _)]
        simp only [finishCount_append, hfin, finishCount_replicate_bodyRead]
        cases resp.Body.readWriter <;> simp [closeCalls, finishCount]
      · cases resp.Body.readWriter <;>
          simp [Body.Close, closeTracker.Close, writerCloseTracker.Close, RawBody.Close]

/-- C3 witness: a HEAD answered 503 finishes the active span in RoundTrip. -/
theorem C3_finish_on_close_witness :
    transport503 sampleHead = RTResult.ok
      { StatusCode := 503, Body := { id := 0, readWriter := false, closeErr := none } } ∧
    ∃ sp, (Transport.RoundTrip transport503 sampleHead (some freshHandle) freshWorld).activeSpan =
        some sp ∧
      (sampleHead.Method = "HEAD" →
        finishCount sp (tracedCalls transport503 sampleHead freshHandle freshWorld) = 1 ∧
        (Transport.RoundTrip transport503 sampleHead (some freshHandle) freshWorld).resp =
          some (RawResponse.asIs
            { StatusCode := 503, Body := { id := 0, readWriter := false, closeErr := none } })) :=
  have key := C3_finish_on_close transport503 sampleHead freshHandle freshWorld
    { StatusCode := 503, Body := { id := 0, readWriter := false, closeErr := none } } rfl
  ⟨rfl, key.elim fun sp hsp => ⟨sp, hsp.1, hsp.2.1⟩⟩

theorem serve_spec (acts : List WriterAction) (mt : metricsTracker) (w : World) :
    mt.serve acts w =
      ((mt.serve acts { next := 0, journal := [] }).1,
        { next := w.next, journal := w.journal ++ acts.map WriterAction.toCall }) := by
  induction acts generalizing mt w with
  | nil => simp [metricsTracker.serve]
  | cons a rest ih =>
    cases a <;>
      simp only [metricsTracker.serve, metricsTracker.WriteHeader, metricsTracker.Write]
    all_goals
      rw [ih]
      conv_rhs => rw [ih]
      simp [World.call, WriterAction.toCall]

theorem writeDirect_spec (acts : List WriterAction) (w : World) :
    writeDirect acts w =
      { next := w.next, journal := w.journal ++ acts.map WriterAction.toCall } := by
  unfold writeDirect
  induction acts generalizing w with
  | nil => simp
  | cons a rest ih =>
    rw [List.foldl_cons, ih]
    cases a <;> simp [WriterAction.direct, World.call, WriterAction.toCall]

theorem deferred_spec (sp : SpanId) (mt : metricsTracker) (p : Option PanicValue) (w : World) :
    deferred sp mt p w =
      { next := w.next, journal := w.journal ++ deferredCalls sp mt p } := by
  simp only [deferred, deferredCalls, World.call]
  split_ifs <;> simp

theorem servedCalls_eq (opts : Options) (h : Handler) (r : Request) (w : World)
    (hf : opts.spanFilter r = true) :
    servedCalls opts h r w = openingCalls opts r w.next ++
      ((opts.handlerRun h r w).actions.map WriterAction.toCall ++
        deferredCalls w.next (opts.handlerRun h r w).captured (opts.handlerRun h r w).panicErr) := by
  unfold servedCalls
  apply newCalls_append
  simp only [Options.MiddlewareFunc, hf, World.StartSpan, World.call]
  rw [serve_spec]
  simp only [deferred_spec]
  cases hpe : (h { r with ctxSpan := some w.next }).panicErr <;>
    simp [Options.handlerRun, HandlerRun.captured, openingCalls, hpe]

theorem ginCalls_eq (opts : Options) (next : Handler) (r : Request) (w : World)
    (hf : opts.spanFilter r = true) :
    ginCalls opts next r w = openingCalls opts r w.next ++
      ((opts.handlerRun next r w).actions.map WriterAction.toCall ++
        deferredCalls w.next { status := 0, size := 0 } (opts.handlerRun next r w).panicErr) := by
  unfold ginCalls
  apply newCalls_append
  simp only [Options.MiddlewareWithGinFunc, hf, World.StartSpan, World.call]
  simp only [deferred_spec]
  cases hpe : (next { r with ctxSpan := some w.next }).panicErr <;>
    simp [Options.handlerRun, openingCalls, hpe, writeDirect_spec]

theorem MiddlewareFunc_outcome (opts : Options) (h : Handler) (r : Request) (w : World)
    (hf : opts.spanFilter r = true) :
    (opts.MiddlewareFunc h r w).1 = (opts.handlerRun h r w).outcome := by
  simp only [Options.MiddlewareFunc, hf, World.StartSpan, World.call]
  cases hpe : (h { r with ctxSpan := some w.next }).panicErr <;>
    simp [Options.handlerRun, HandlerRun.outcome, hpe]

theorem tagsOf_append (sp : SpanId) (key : String) (xs ys : List Call) :
    tagsOf sp key (xs ++ ys) = tagsOf sp key xs ++ tagsOf sp key ys := by
  simp [tagsOf]

theorem startCount_append (xs ys : List Call) :
    startCount (xs ++ ys) = startCount xs + startCount ys := by
  simp [startCount]

theorem finishTotal_append (xs ys : List Call) :
    finishTotal (xs ++ ys) = finishTotal xs + finishTotal ys := by
  simp [finishTotal]

theorem writes_quiet (acts : List WriterAction) (sp : SpanId) (key : String) :
    tagsOf sp key (acts.map WriterAction.toCall) = [] ∧
    finishCount sp (acts.map WriterAction.toCall) = 0 ∧
    finishTotal (acts.map WriterAction.toCall) = 0 ∧
    startCount (acts.map WriterAction.toCall) = 0 := by
  induction acts with
  | nil => simp [tagsOf, finishCount, finishTotal, startCount]
  | cons a rest ih =>
    obtain ⟨h1, h2, h3, h4⟩ := ih
    cases a <;>
      simp_all [tagsOf, finishCount, finishTotal, startCount, WriterAction.toCall]

theorem deferredCalls_shape (sp : SpanId) (mt : metricsTracker) (p : Option PanicValue) :
    (deferredCalls sp mt p).getLast? = some (Call.finish sp) ∧
      finishCount sp (deferredCalls sp mt p) = 1 ∧ finishTotal (deferredCalls sp mt p) = 1 ∧
      startCount (deferredCalls sp mt p) = 0 := by
  simp only [deferredCalls, deferred, World.call]
  split_ifs <;> simp [finishCount, finishTotal, startCount]

theorem deferredCalls_status (sp : SpanId) (mt : metricsTracker) (p : Option PanicValue) :
    tagsOf sp "http.status_code" (deferredCalls sp mt p) =
      if mt.status = 0 ∧ p = none then [TagValue.uint16 200]
      else if 0 < mt.status then [TagValue.uint16 (uint16 mt.status)] else [] := by
  simp only [deferredCalls, deferred, World.call]
  cases p <;> split_ifs <;> simp_all [tagsOf, responseSizeKey, uint16]

theorem deferredCalls_error (sp : SpanId) (mt : metricsTracker) (p : Option PanicValue) :
    tagsOf sp "error" (deferredCalls sp mt p) =
      if 500 ≤ mt.status ∨ p.isSome = true then [TagValue.bool true] else [] := by
  simp only [deferredCalls, deferred, World.call, StatusInternalServerError]
  cases p <;> split_ifs <;> simp_all [tagsOf, responseSizeKey]

theorem deferredCalls_size (sp : SpanId) (mt : metricsTracker) (p : Option PanicValue) :
    tagsOf sp "http.response_size" (deferredCalls sp mt p) =
      if 0 < mt.size then [TagValue.int mt.size] else [] := by
  simp only [deferredCalls, deferred, World.call]
  cases p <;> split_ifs <;> simp_all [tagsOf, responseSizeKey]

theorem serve_status_sticky (acts : List WriterAction) (mt : metricsTracker) (w : World)
    (h : mt.status ≠ 0) : (mt.serve acts w).1.status = mt.status := by
  induction acts generalizing mt w with
  | nil => simp [metricsTracker.serve]
  | cons a rest ih =>
    cases a with
    | WriteHeader status =>
      simp only [metricsTracker.serve, metricsTracker.WriteHeader, if_neg h]
      exact ih mt _ h
    | Write n =>
      simp only [metricsTracker.serve, metricsTracker.Write]
      exact ih { mt with size := mt.size + n } _ h

theorem captured_first_status (s : Int) (rest : List WriterAction) (p : Option PanicValue)
    (hs : s ≠ 0) :
    (HandlerRun.captured { actions := WriterAction.WriteHeader s :: rest, panicErr := p }).status =
      s := by
  simp only [HandlerRun.captured, metricsTracker.serve, metricsTracker.WriteHeader, if_true]
  exact serve_status_sticky rest { status := s, size := 0 } _ hs

theorem openingCalls_counts (opts : Options) (r : Request) (sp : SpanId) :
    startCount (openingCalls opts r sp) = 1 ∧ finishCount sp (openingCalls opts r sp) = 0 ∧
      finishTotal (openingCalls opts r sp) = 0 ∧
      tagsOf sp "http.status_code" (openingCalls opts r sp) = [] ∧
      tagsOf sp "error" (openingCalls opts r sp) = [] ∧
      tagsOf sp "http.response_size" (openingCalls opts r sp) = [] := by
  simp [openingCalls, startCount, finishCount, finishTotal, tagsOf]

/-- C5: for every inbound request accepted by the span filter, the handler
produced by MiddlewareFunc starts exactly one span and finishes it exactly
once (and finishes no other span), whether the inner handler returns or
panics; the Finish is the last call the middleware makes; the middleware
returns normally when the inner handler does, and when the inner handler
panics with value v it panics with the same value v. -/
theorem C5_server_span_once (opts : Options) (h : Handler) (r : Request) (w : World)
    (hf : opts.spanFilter r = true) :
    startCount (servedCalls opts h r w) = 1 ∧
    Call.startSpan w.next (opts.opNameFunc r) [StartOpt.rpcServer r.carried] ∈
      servedCalls opts h r w ∧
    finishCount w.next (servedCalls opts h r w) = 1 ∧
    finishTotal (servedCalls opts h r w) = 1 ∧
    (servedCalls opts h r w).getLast? = some (Call.finish w.next) ∧
    ((opts.handlerRun h r w).panicErr = none →
      (opts.MiddlewareFunc h r w).1 = Outcome.returned) ∧
    (∀ v, (opts.handlerRun h r w).panicErr = some v →
      (opts.MiddlewareFunc h r w).1 = Outcome.panicked v) := by
  obtain ⟨o1, o2, o3, _⟩ := openingCalls_counts opts r w.next
  obtain ⟨_, q2, q3, q4⟩ := writes_quiet (opts.handlerRun h r w).actions w.next ""
  obtain ⟨d1, d2, d3, d4⟩ := deferredCalls_shape w.next (opts.handlerRun h r w).captured
    (opts.handlerRun h r w).panicErr
  rw [servedCalls_eq opts h r w hf, MiddlewareFunc_outcome opts h r w hf]
  refine ⟨?_, ?_, ?_, ?_, ?_, ?_, ?_⟩
  · simp [startCount_append, o1, q4, d4]
  · simp [openingCalls]
  · simp [finishCount_append, o2, q2, d2]
  · simp [finishTotal_append, o3, q3, d3]
  · simp [List.getLast?_append, d1]
  · intro hp
    simp [HandlerRun.outcome, hp]
  · intro v hp
    simp [HandlerRun.outcome, hp]

/-- C5 witness: the handler that writes nothing and panics. -/
theorem C5_server_span_once_witness :
    NewTracerServer.spanFilter sampleGet = true ∧
    finishCount 0 (servedCalls NewTracerServer handlerPanic sampleGet freshWorld) = 1 ∧
    (servedCalls NewTracerServer handlerPanic sampleGet freshWorld).getLast? =
      some (Call.finish 0) ∧
    (NewTracerServer.MiddlewareFunc handlerPanic sampleGet freshWorld).1 =
      Outcome.panicked { what := "boom" } :=
  have key := C5_server_span_once NewTracerServer handlerPanic sampleGet freshWorld rfl
  ⟨rfl, key.2.2.1, key.2.2.2.2.1, key.2.2.2.2.2.2 { what := "boom" } rfl⟩

/-- C6 (as the code behaves): for every inbound request accepted by the span
filter and handled through MiddlewareFunc, with s the status the Metrics
Tracker captured: if 0 < s < 65536 the http.status_code tag of the span is s
(for every s > 0 it is s mod 65536, the tag being a uint16); if no status
was captured and the handler did not panic, the tag is 200; if no status was
captured and the handler panicked, no http.status_code tag is set. -/
theorem C6_status_tag (opts : Options) (h : Handler) (r : Request) (w : World)
    (hf : opts.spanFilter r = true) :
    (0 < (opts.handlerRun h r w).captured.status →
      (opts.handlerRun h r w).captured.status < 65536 →
      tagsOf w.next "http.status_code" (servedCalls opts h r w) =
        [TagValue.uint16 (opts.handlerRun h r w).captured.status.toNat]) ∧
    (0 < (opts.handlerRun h r w).captured.status →
      tagsOf w.next "http.status_code" (servedCalls opts h r w) =
        [TagValue.uint16 ((opts.handlerRun h r w).captured.status % 65536).toNat]) ∧
    ((opts.handlerRun h r w).captured.status = 0 → (opts.handlerRun h r w).panicErr = none →
      tagsOf w.next "http.status_code" (servedCalls opts h r w) = [TagValue.uint16 200]) ∧
    ((opts.handlerRun h r w).captured.status = 0 → (opts.handlerRun h r w).panicErr ≠ none →
      tagsOf w.next "http.status_code" (servedCalls opts h r w) = []) := by
  obtain ⟨_, _, _, o4, _, _⟩ := openingCalls_counts opts r w.next
  obtain ⟨q1, _, _, _⟩ :=
    writes_quiet (opts.handlerRun h r w).actions w.next "http.status_code"
  rw [servedCalls_eq opts h r w hf]
  simp only [tagsOf_append, o4, q1, deferredCalls_status, List.nil_append]
  refine ⟨?_, ?_, ?_, ?_⟩
  · intro h0 h1
    have hne : (opts.handlerRun h r w).captured.status ≠ 0 := ne_of_gt h0
    simp [hne, h0, uint16_of_range _ (le_of_lt h0) h1]
  · intro h0
    have hne : (opts.handlerRun h r w).captured.status ≠ 0 := ne_of_gt h0
    simp [hne, h0, uint16]
  · intro h0 hp
    simp [h0, hp]
  · intro h0 hp
    simp [h0, hp]

/-- C6 witness: the handler that writes status 404. -/
theorem C6_status_tag_witness :
    NewTracerServer.spanFilter sampleGet = true ∧
    tagsOf 0 "http.status_code" (servedCalls NewTracerServer handler404 sampleGet freshWorld) =
      [TagValue.uint16 404] :=
  ⟨rfl, (C6_status_tag NewTracerServer handler404 sampleGet freshWorld rfl).1
    (by decide) (by decide)⟩

/-- C6 counterexample: the handler writes the status s = 65736 > 0 and does
not panic; the Metrics Tracker captures 65736, and the http.status_code tag
of the span is 200, not s. -/
theorem C6_counterexample :
    NewTracerServer.spanFilter sampleGet = true ∧
    (NewTracerServer.handlerRun handler65736 sampleGet freshWorld).captured.status = 65736 ∧
    tagsOf 0 "http.status_code" (servedCalls NewTracerServer handler65736 sampleGet freshWorld) =
      [TagValue.uint16 200] ∧
    tagsOf 0 "http.status_code" (servedCalls NewTracerServer handler65736 sampleGet freshWorld) ≠
      [TagValue.uint16 65736] := by
  decide

/-- C7: for every inbound request accepted by the span filter and handled
through MiddlewareFunc, the span is tagged error = true if and only if the
captured status is >= 500 or the inner handler panicked (the status that
counts is the one after the default: 200 replaces an unset status when there
was no panic, and 200 < 500); otherwise no error tag is set at all. -/
theorem C7_error_tag (opts : Options) (h : Handler) (r : Request) (w : World)
    (hf : opts.spanFilter r = true) :
    (TagValue.bool true ∈ tagsOf w.next "error" (servedCalls opts h r w) ↔
      (500 ≤ (opts.handlerRun h r w).captured.status ∨
        (opts.handlerRun h r w).panicErr ≠ none)) ∧
    (TagValue.bool true ∈ tagsOf w.next "error" (servedCalls opts h r w) ↔
      (500 ≤ (if (opts.handlerRun h r w).captured.status = 0 ∧
            (opts.handlerRun h r w).panicErr = none
          then 200 else (opts.handlerRun h r w).captured.status) ∨
        (opts.handlerRun h r w).panicErr ≠ none)) ∧
    ((opts.handlerRun h r w).captured.status < 500 → (opts.handlerRun h r w).panicErr = none →
      tagsOf w.next "error" (servedCalls opts h r w) = []) := by
  obtain ⟨_, _, _, _, o5, _⟩ := openingCalls_counts opts r w.next
  obtain ⟨q1, _, _, _⟩ := writes_quiet (opts.handlerRun h r w).actions w.next "error"
  rw [servedCalls_eq opts h r w hf]
  simp only [tagsOf_append, o5, q1, deferredCalls_error, List.nil_append]
  cases hp : (opts.handlerRun h r w).panicErr with
  | some v => simp
  | none =>
    by_cases h5 : 500 ≤ (opts.handlerRun h r w).captured.status
    · have hne : (opts.handlerRun h r w).captured.status ≠ 0 := by omega
      simp [h5, hne]
    · simp only [h5, Option.isSome_none, Bool.false_eq_true, or_self, if_false,
        List.not_mem_nil, ne_eq, not_true_eq_false, false_iff, or_false, and_true, not_le,
        not_false_eq_true, implies_true]
      split_ifs <;> refine ⟨trivial, ?_⟩ <;> omega

/-- C7 witness: status 503 without a panic gives the error tag. -/
theorem C7_error_tag_witness :
    NewTracerServer.spanFilter sampleGet = true ∧
    (TagValue.bool true ∈
        tagsOf 0 "error" (servedCalls NewTracerServer handler503 sampleGet freshWorld) ↔
      (500 ≤ (NewTracerServer.handlerRun handler503 sampleGet freshWorld).captured.status ∨
        (NewTracerServer.handlerRun handler503 sampleGet freshWorld).panicErr ≠ none)) :=
  ⟨rfl, (C7_error_tag NewTracerServer handler503 sampleGet freshWorld rfl).1⟩

/-- C8 (the code at the failing input): a request accepted by the span
filter goes through MiddlewareWithGinFunc, the downstream handler writes
status 503 and three bytes and does not panic; the span is tagged
http.status_code = 200, with no error tag and no response size, although the
same handler behind MiddlewareFunc gives http.status_code = 503,
error = true and a response size of 3. -/
theorem C8_gin_misses_written_status :
    NewTracerServer.spanFilter sampleGet = true ∧
    (NewTracerServer.MiddlewareWithGinFunc handler503 sampleGet freshWorld).1 =
      Outcome.returned ∧
    Call.writeHeader 503 ∈ ginCalls NewTracerServer handler503 sampleGet freshWorld ∧
    tagsOf 0 "http.status_code" (ginCalls NewTracerServer handler503 sampleGet freshWorld) =
      [TagValue.uint16 200] ∧
    tagsOf 0 "error" (ginCalls NewTracerServer handler503 sampleGet freshWorld) = [] ∧
    tagsOf 0 "http.response_size" (ginCalls NewTracerServer handler503 sampleGet freshWorld) =
      [] ∧
    tagsOf 0 "http.status_code" (servedCalls NewTracerServer handler503 sampleGet freshWorld) =
      [TagValue.uint16 503] ∧
    tagsOf 0 "error" (servedCalls NewTracerServer handler503 sampleGet freshWorld) =
      [TagValue.bool true] ∧
    tagsOf 0 "http.response_size"
      (servedCalls NewTracerServer handler503 sampleGet freshWorld) = [TagValue.int 3] := by
  decide

theorem gin_tags_ignore_handler (opts : Options) (next : Handler) (r : Request) (w : World)
    (hf : opts.spanFilter r = true) (hp : (opts.handlerRun next r w).panicErr = none) :
    tagsOf w.next "http.status_code" (ginCalls opts next r w) = [TagValue.uint16 200] ∧
    tagsOf w.next "error" (ginCalls opts next r w) = [] ∧
    tagsOf w.next "http.response_size" (ginCalls opts next r w) = [] := by
  obtain ⟨_, _, _, o4, o5, o6⟩ := openingCalls_counts opts r w.next
  have q := writes_quiet (opts.handlerRun next r w).actions w.next
  rw [ginCalls_eq opts next r w hf]
  simp [tagsOf_append, o4, o5, o6, q, deferredCalls_status, deferredCalls_error,
    deferredCalls_size, hp]

theorem dnsDone_fields (addrs : List String) (init : List Field) :
    List.foldl (fun fields addr => fields ++ [Field.string "addr" addr]) init addrs =
      init ++ addrs.map (Field.string "addr") := by
  induction addrs generalizing init with
  | nil => simp
  | cons a rest ih => simp [ih]

/-- C9 (as the code behaves): for every one of the twelve connection-event
hooks and every argument value, one invocation on a handle whose active span
is sp appends exactly one log entry, to the active span and to no other span.
Its event field is the name of the hook, except on the error path of
ConnectDone and of WroteRequest (a non-nil error), where the event field is
"error" and the name of the hook is under message. WroteRequest with a
non-nil error also sets error = true on the active span, and no other hook
invocation sets an error tag on any span. -/
theorem C9_hook_logs (h : Tracer) (sp : SpanId) (c : HookCall) (w : World)
    (hsp : h.sp = some sp) :
    (h.clientTrace c w).isSome = true ∧
    (∀ s, sp ≠ s → logsOf s (hookCalls h c w) = []) ∧
    (∀ s, sp ≠ s → tagsOf s "error" (hookCalls h c w) = []) ∧
    (tagsOf sp "error" (hookCalls h c w) =
      if c.isFailedWrite = true then [TagValue.bool true] else []) ∧
    ∃ fs, logsOf sp (hookCalls h c w) = [fs] ∧
      (c.errorPath = false → fieldOf "event" fs = some c.name) ∧
      (c.errorPath = true →
        fieldOf "event" fs = some "error" ∧ fieldOf "message" fs = some c.name) := by
  cases c with
  | DNSDone Addrs Err =>
    cases Err <;>
      simp [hookCalls, Tracer.clientTrace, Tracer.dnsDone, Tracer.LogFields, Tracer.SetTag, hsp,
        World.call, newCalls, logsOf, tagsOf, fieldOf, HookCall.errorPath, HookCall.name,
        HookCall.isFailedWrite, dnsDone_fields]
  | ConnectDone network addr err =>
    cases err <;>
      simp [hookCalls, Tracer.clientTrace, Tracer.connectDone, Tracer.LogFields, Tracer.SetTag,
        hsp, World.call, newCalls, logsOf, tagsOf, fieldOf, HookCall.errorPath, HookCall.name,
        HookCall.isFailedWrite]
  | WroteRequest Err =>
    cases Err <;>
      simp [hookCalls, Tracer.clientTrace, Tracer.wroteRequest, Tracer.LogFields, Tracer.SetTag,
        hsp, World.call, newCalls, logsOf, tagsOf, fieldOf, HookCall.errorPath, HookCall.name,
        HookCall.isFailedWrite, bind, Option.bind]
  | _ =>
    simp [hookCalls, Tracer.clientTrace, Tracer.getConn, Tracer.gotConn, Tracer.putIdleConn,
      Tracer.gotFirstResponseByte, Tracer.got100Continue, Tracer.dnsStart, Tracer.connectStart,
      Tracer.wroteHeaders, Tracer.wait100Continue, Tracer.LogFields, Tracer.SetTag,
      hsp, World.call, newCalls, logsOf, tagsOf, fieldOf, HookCall.errorPath, HookCall.name,
      HookCall.isFailedWrite, bind, Option.bind]

/-- C9 witness: a GotConn invocation. -/
theorem C9_hook_logs_witness :
    sampleHandle.sp = some 0 ∧
    ∃ fs, logsOf 0 (hookCalls sampleHandle (HookCall.GotConn true false) freshWorld) = [fs] ∧
      ((HookCall.GotConn true false).errorPath = false →
        fieldOf "event" fs = some (HookCall.GotConn true false).name) ∧
      ((HookCall.GotConn true false).errorPath = true →
        fieldOf "event" fs = some "error" ∧
          fieldOf "message" fs = some (HookCall.GotConn true false).name) :=
  ⟨rfl, (C9_hook_logs sampleHandle 0 (HookCall.GotConn true false) freshWorld rfl).2.2.2.2⟩

/-- C9 counterexample: ConnectDone with a non-nil error appends one log entry
whose event field is "error", not the name of the hook. -/
theorem C9_counterexample :
    sampleConnectDone.name = "ConnectDone" ∧
    (logsOf 0 (hookCalls sampleHandle sampleConnectDone freshWorld)).map (fieldOf "event") =
      [some "error"] ∧
    (logsOf 0 (hookCalls sampleHandle sampleConnectDone freshWorld)).map (fieldOf "event") ≠
      [some sampleConnectDone.name] := by
  decide

theorem startsOf_append (xs ys : List Call) : startsOf (xs ++ ys) = startsOf xs ++ startsOf ys := by
  simp [startsOf]

theorem startCount_eq_length (cs : List Call) : startCount cs = (startsOf cs).length := by
  simp [startCount, startsOf, List.countP_eq_length_filter]

theorem activeStarts_length (p n : Nat) (rs : List Request) :
    (activeStarts p n rs).length = rs.length := by
  induction rs generalizing n with
  | nil => simp [activeStarts]
  | cons r rs ih => simp [activeStarts, ih]

theorem RoundTrip_step_known (rt : Request → RTResult) (req : Request) (h : Tracer) (w : World)
    (p : SpanId) (hp : h.parentSpan = some p) :
    ∃ h2, (Transport.RoundTrip rt req (some h) w).tracer = some h2 ∧ h2.opts = h.opts ∧
      h2.parentSpan = some p ∧ h2.sp = some w.next ∧
      (Transport.RoundTrip rt req (some h) w).world.next = w.next + 1 ∧
      startsOf (tracedCalls rt req h w) = activeStarts p w.next [req] := by
  cases hi : h.opts.disableInjectSpanContext <;>
  cases hr : rt req <;>
    simp [tracedCalls, Transport.RoundTrip, hr, Tracer.start, hp, hi, World.StartSpan,
      World.call, newCalls, startsOf, activeStarts] <;>
    split_ifs <;> simp

theorem RoundTrip_step_fresh (rt : Request → RTResult) (req : Request) (h : Tracer) (w : World)
    (hp : h.parentSpan = none) :
    ∃ h2, (Transport.RoundTrip rt req (some h) w).tracer = some h2 ∧ h2.opts = h.opts ∧
      h2.parentSpan = some w.next ∧ h2.sp = some (w.next + 1) ∧
      (Transport.RoundTrip rt req (some h) w).world.next = w.next + 2 ∧
      startsOf (tracedCalls rt req h w) =
        Call.startSpan w.next h.opts.operationName [StartOpt.childOf req.ctxSpan] ::
          activeStarts w.next (w.next + 1) [req] := by
  cases hi : h.opts.disableInjectSpanContext <;>
  cases hr : rt req <;>
    simp [tracedCalls, Transport.RoundTrip, hr, Tracer.start, hp, hi, World.StartSpan,
      World.call, newCalls, startsOf, activeStarts] <;>
    split_ifs <;> simp

theorem RoundTrip_keeps_known (rt : Request → RTResult) (req : Request) (h : Tracer) (w : World)
    (hk : h.known w) :
    ∃ h2, (Transport.RoundTrip rt req (some h) w).tracer = some h2 ∧
      h2.known (Transport.RoundTrip rt req (some h) w).world := by
  cases hp : h.parentSpan with
  | none =>
    obtain ⟨h2, ht, _, hp2, _, hn, _⟩ := RoundTrip_step_fresh rt req h w hp
    refine ⟨h2, ht, fun q hq => ?_⟩
    rw [hp2] at hq
    have hq2 : w.next = q := Option.some.inj hq
    rw [hn, ← hq2]
    exact Nat.lt_add_of_pos_right (by decide)
  | some p =>
    have hlt : p < w.next := hk p hp
    obtain ⟨h2, ht, _, hp2, _, hn, _⟩ := RoundTrip_step_known rt req h w p hp
    refine ⟨h2, ht, fun q hq => ?_⟩
    rw [hp2] at hq
    have hq2 : p = q := Option.some.inj hq
    rw [hn, ← hq2]
    exact Nat.lt_succ_of_lt hlt

theorem attempts_known (as : List ((Request → RTResult) × Request)) (h : Tracer) (w : World)
    (p : SpanId) (hp : h.parentSpan = some p) :
    (attempts as h w).1.parentSpan = some p ∧ (attempts as h w).1.opts = h.opts ∧
      (attempts as h w).2.next = w.next + as.length ∧
      ∃ cs, (attempts as h w).2.journal = w.journal ++ cs ∧
        startsOf cs = activeStarts p w.next (as.map Prod.snd) := by
  induction as generalizing h w with
  | nil => exact ⟨hp, rfl, rfl, [], by simp [attempts], by simp [startsOf, activeStarts]⟩
  | cons a rest ih =>
    obtain ⟨rt, req⟩ := a
    obtain ⟨h2, ht, ho, hp2, _, hn, hs⟩ := RoundTrip_step_known rt req h w p hp
    obtain ⟨i1, i2, i3, cs, i4, i5⟩ :=
      ih h2 (Transport.RoundTrip rt req (some h) w).world hp2
    simp only [attempts, ht, Option.getD_some]
    refine ⟨i1, i2.trans ho, ?_, tracedCalls rt req h w ++ cs, ?_, ?_⟩
    · rw [i3, hn, List.length_cons]; omega
    · rw [i4, RoundTrip_extends, List.append_assoc]
    · rw [startsOf_append, hs, i5, hn]
      simp [activeStarts]

/-- C10: for every fresh trace handle (no parent span yet) and every sequence
of k >= 1 transport attempts made with it through Transport.RoundTrip, the
StartSpan calls made are exactly: one for the parent span, on the first
attempt, and then one per attempt for its active span, each a fresh span,
child of that parent span and named "HTTP <method> :<path>" from the request
of the attempt; so k attempts start exactly k + 1 spans; and after the first
attempt and after every later one the handle holds the same parent span. -/
theorem C10_parent_once (a : (Request → RTResult) × Request)
    (rest : List ((Request → RTResult) × Request)) (h : Tracer) (w : World)
    (hp : h.parentSpan = none) :
    startsOf (newCalls w (attempts (a :: rest) h w).2) =
      Call.startSpan w.next h.opts.operationName [StartOpt.childOf a.2.ctxSpan] ::
        activeStarts w.next (w.next + 1) ((a :: rest).map Prod.snd) ∧
    startCount (newCalls w (attempts (a :: rest) h w).2) = (a :: rest).length + 1 ∧
    ∀ i, (attempts (a :: rest.take i) h w).1.parentSpan = some w.next := by
  have main : ∀ rest : List ((Request → RTResult) × Request),
      startsOf (newCalls w (attempts (a :: rest) h w).2) =
        Call.startSpan w.next h.opts.operationName [StartOpt.childOf a.2.ctxSpan] ::
          activeStarts w.next (w.next + 1) ((a :: rest).map Prod.snd) ∧
      (attempts (a :: rest) h w).1.parentSpan = some w.next := by
    intro rest
    obtain ⟨rt, req⟩ := a
    obtain ⟨h2, ht, _, hp2, _, hn, hs⟩ := RoundTrip_step_fresh rt req h w hp
    obtain ⟨i1, _, _, cs, i4, i5⟩ :=
      attempts_known rest h2 (Transport.RoundTrip rt req (some h) w).world w.next hp2
    simp only [attempts, ht, Option.getD_some]
    refine ⟨?_, i1⟩
    rw [newCalls_append w _ (tracedCalls rt req h w ++ cs)
      (by rw [i4, RoundTrip_extends, List.append_assoc])]
    rw [startsOf_append, hs, i5, hn]
    simp [activeStarts]
  refine ⟨(main rest).1, ?_, fun i => (main (rest.take i)).2⟩
  rw [startCount_eq_length, (main rest).1]
  simp [activeStarts_length]

/-- C10 witness: a failed attempt followed by a retry answered 503. -/
theorem C10_parent_once_witness :
    freshHandle.parentSpan = none ∧
    startCount (newCalls freshWorld
      (attempts [(failingTransport, sampleGet), (transport503, sampleGet)]
        freshHandle freshWorld).2) = 3 ∧
    startsOf (newCalls freshWorld
      (attempts [(failingTransport, sampleGet), (transport503, sampleGet)]
        freshHandle freshWorld).2) =
      [Call.startSpan 0 "" [StartOpt.childOf none],
        Call.startSpan 1 "HTTP GET :/items/42"
          [StartOpt.childOf (some 0), StartOpt.spanKindRPCClient],
        Call.startSpan 2 "HTTP GET :/items/42"
          [StartOpt.childOf (some 0), StartOpt.spanKindRPCClient]] :=
  have key := C10_parent_once (failingTransport, sampleGet) [(transport503, sampleGet)]
    freshHandle freshWorld rfl
  ⟨rfl, key.2.1, key.1⟩

end Nethttp
